import Mathlib

/-!
Verification of the iOS IPA signing engine (ios-tool repository).

This file gives a shallow embedding, in Lean 4, of the signing subsystem:
`src/signing/crypto_utils.py`, `src/signing/models.py`, `src/signing/core.py`,
`src/signing/annual.py`, `src/signing/apple_auth.py` and
`src/signing/weekly.py`.  Python strings are modelled as `List Char` (or as
`List Nat` of code points where character arithmetic is needed), bytes as
`List Nat`, dicts as association lists with Python's insertion-order update
semantics, and raised exceptions as `Except` values.  Functions are direct
translations of the Python source; definitions that instead follow the
wording of the specification are suffixed `Spec` or `Claim`.
-/

namespace IosTool

/-- Code points of a string literal (model of a Python `str`/`bytes` literal). -/
def nstr (s : String) : List Nat := s.data.map Char.toNat

/-- Characters of a string literal (model of a Python `str` literal). -/
def cstr (s : String) : List Char := s.data

/-! ## Python dict model

Python dicts preserve insertion order; assignment to an existing key
overwrites the value in place, assignment to a fresh key appends. -/

/-- Dict lookup, `d.get(k)` / `d[k]`. -/
def pget {V : Type} : List (List Char × V) → List Char → Option V
  | [], _ => none
  | (k', v') :: rest, k => if k' = k then some v' else pget rest k

/-- Dict assignment `d[k] = v`: overwrite in place, else append. -/
def setKey {V : Type} : List (List Char × V) → List Char → V → List (List Char × V)
  | [], k, v => [(k, v)]
  | (k', v') :: rest, k, v =>
      if k' = k then (k', v) :: rest else (k', v') :: setKey rest k v

/-- Property-list values as produced by `plistlib.loads`. -/
inductive PValue where
  | bool (b : Bool)
  | str (s : List Char)
  | int (n : Int)
  | bytes (bs : List Nat)
  | date (t : Int)
  | arr (xs : List PValue)
  | dict (kvs : List (List Char × PValue))

/-- Python truthiness of a property-list value (`bool(v)`). -/
def pTruthy : PValue → Bool
  | .bool b => b
  | .str s => !s.isEmpty
  | .int n => n != 0
  | .bytes bs => !bs.isEmpty
  | .date _ => true
  | .arr xs => !xs.isEmpty
  | .dict kvs => !kvs.isEmpty

/-- Python exceptions raised by the modelled code. -/
inductive PyExc where
  | attributeError (attr : List Nat)
  | typeError
deriving DecidableEq

/-! ## crypto_utils.py — CMS payload extraction

`ProvisioningProfileParser._extract_plist` (crypto_utils.py lines 221-233):

    plist_start = data.find(b"<?xml")
    if plist_start == -1:
        plist_start = data.find(b"<plist")
    plist_end = data.rfind(b"</plist>")
    if plist_start == -1 or plist_end == -1:
        raise CryptoError("Could not find plist data in profile")
    return data[plist_start:plist_end + len(b"</plist>")]
-/

/-- `bytes.find(pat)`: index of the first occurrence, `none` for Python's -1. -/
def bytesFind (pat : List Nat) : List Nat → Option Nat
  | [] => if pat.isEmpty then some 0 else none
  | b :: rest =>
      if pat.isPrefixOf (b :: rest) then some 0
      else (bytesFind pat rest).map (· + 1)

/-- `bytes.rfind(pat)`: index of the last occurrence, `none` for Python's -1. -/
def bytesRFind (pat : List Nat) : List Nat → Option Nat
  | [] => if pat.isEmpty then some 0 else none
  | b :: rest =>
      match bytesRFind pat rest with
      | some i => some (i + 1)
      | none => if pat.isPrefixOf (b :: rest) then some 0 else none

/-- Error raised by the profile parsing helpers (`CryptoError`). -/
inductive CryptoErrM where
  | notACmsPlist
deriving DecidableEq

/-- `ProvisioningProfileParser._extract_plist` translated from
crypto_utils.py lines 221-233.  The slice `data[s : e+8]` is
`(data.take (e+8)).drop s`. -/
def extractPlist (data : List Nat) : Except CryptoErrM (List Nat) :=
  let ps :=
    match bytesFind (nstr "<?xml") data with
    | some i => some i
    | none => bytesFind (nstr "<plist") data
  match ps, bytesRFind (nstr "</plist>") data with
  | some s, some e => .ok ((data.take (e + 8)).drop s)
  | _, _ => .error .notACmsPlist

/-- The extractor as the claim words it: the slice starts at the EARLIEST
occurrence of either opening marker (`<?xml` or `<plist`). -/
def extractCmsPayloadClaim (data : List Nat) : Except CryptoErrM (List Nat) :=
  let opening :=
    match bytesFind (nstr "<?xml") data, bytesFind (nstr "<plist") data with
    | some a, some b => some (min a b)
    | some a, none => some a
    | none, some b => some b
    | none, none => none
  match opening, bytesRFind (nstr "</plist>") data with
  | some s, some e => .ok ((data.take (e + 8)).drop s)
  | _, _ => .error .notACmsPlist

/-- Projection used to state facts about `Except` results without needing
decidable equality of the error type. -/
def exOk? {E A : Type} : Except E A → Option A
  | .ok a => some a
  | .error _ => none

/-! ## crypto_utils.py — profile variant classification

`ProvisioningProfileParser.get_profile_info` (crypto_utils.py lines 256-270):

    provisions_all = plist.get("ProvisionsAllDevices", False)
    get_task_allow = plist.get("Entitlements", {}).get("get-task-allow", False)
    if provisions_all: profile_type = "Enterprise"
    elif get_task_allow: profile_type = "Development"
    else:
        if plist.get("ProvisionedDevices"): profile_type = "AdHoc"
        else: profile_type = "AppStore"
-/

/-- `plist.get("Entitlements", {}).get("get-task-allow", False)`.  Accessing
`.get` on a non-dict value raises `AttributeError`. -/
def getTaskAllowOf (plist : List (List Char × PValue)) : Except PyExc PValue :=
  match pget plist (cstr "Entitlements") with
  | none => .ok (.bool false)
  | some (.dict d) => .ok ((pget d (cstr "get-task-allow")).getD (.bool false))
  | some _ => .error (.attributeError (nstr "get"))

/-- Profile variant classification from `get_profile_info`
(crypto_utils.py lines 256-270). -/
def classifyProfileType (plist : List (List Char × PValue)) : Except PyExc (List Char) :=
  let pa := (pget plist (cstr "ProvisionsAllDevices")).getD (.bool false)
  match getTaskAllowOf plist with
  | .error e => .error e
  | .ok gta =>
      .ok (if pTruthy pa then cstr "Enterprise"
        else if pTruthy gta then cstr "Development"
        else if (match pget plist (cstr "ProvisionedDevices") with
                 | some v => pTruthy v
                 | none => false) then cstr "AdHoc"
        else cstr "AppStore")

/-- Spec-side reading of the classification table row 1:
`ProvisionsAllDevices == true`. -/
def paTrueB (plist : List (List Char × PValue)) : Bool :=
  match pget plist (cstr "ProvisionsAllDevices") with
  | some (.bool true) => true
  | _ => false

/-- Spec-side reading of row 2: `Entitlements["get-task-allow"] == true`. -/
def gtaTrueB (plist : List (List Char × PValue)) : Bool :=
  match pget plist (cstr "Entitlements") with
  | some (.dict d) =>
      match pget d (cstr "get-task-allow") with
      | some (.bool true) => true
      | _ => false
  | _ => false

/-- Spec-side reading of row 3: `ProvisionedDevices` non-empty. -/
def devNonemptyB (plist : List (List Char × PValue)) : Bool :=
  match pget plist (cstr "ProvisionedDevices") with
  | some (.arr xs) => !xs.isEmpty
  | _ => false

/-- The classification table of the specification (first match wins). -/
def classifyTable (pa gta dev : Bool) : List Char :=
  if pa then cstr "Enterprise"
  else if gta then cstr "Development"
  else if dev then cstr "AdHoc"
  else cstr "AppStore"

/-! ## models.py — data model

Dataclasses `Certificate` and `ProvisioningProfile` (models.py lines 33-119).
`datetime` values are modelled as integers. -/

/-- `Certificate` dataclass (models.py lines 33-46). -/
structure CertificateM where
  serialNumber : List Char
  commonName : List Char
  organization : Option (List Char)
  teamId : Option (List Char)
  notBefore : Int
  notAfter : Int
  fingerprintSha1 : List Char
  fingerprintSha256 : List Char
  rawData : List Nat
  privateKey : Option (List Nat)

/-- `ProvisioningProfile` dataclass (models.py lines 71-85). -/
structure ProvisioningProfileM where
  uuid : List Char
  name : List Char
  appId : List Char
  teamId : List Char
  teamName : List Char
  creationDate : Int
  expirationDate : Int
  devices : List (List Char)
  entitlements : List (List Char × PValue)
  certificates : List (List Nat)
  rawData : List Nat

/-- Python `s.split(sep, 1)` helper: the first split point, if any.
Returns the part before the first `sep` and the remainder after it. -/
def pySplitOnceAux (sep : Char) : List Char → Option (List Char × List Char)
  | [] => none
  | c :: rest =>
      if c = sep then some ([], rest)
      else
        match pySplitOnceAux sep rest with
        | none => none
        | some (a, b) => some (c :: a, b)

/-- `ProvisioningProfile.bundle_id_pattern` (models.py lines 104-109):
`parts = app_id.split(".", 1); return parts[1] if len(parts) > 1 else "*"`. -/
def bundleIdPattern (appId : List Char) : List Char :=
  match pySplitOnceAux '.' appId with
  | some (_, rest) => rest
  | none => cstr "*"

/-- Python `s.split(sep)` on characters (no maxsplit). -/
def pySplitChar (sep : Char) : List Char → List (List Char)
  | [] => [[]]
  | c :: rest =>
      let r := pySplitChar sep rest
      if c = sep then [] :: r
      else
        match r with
        | [] => [[c]]
        | g :: gs => (c :: g) :: gs

/-! ## core.py — effective bundle id

`SigningCore.calculate_bundle_id` (core.py lines 311-338). -/

/-- `SigningCore.calculate_bundle_id` translated from core.py lines 311-338.
`pattern.endswith("*")` is the last character being `*`; `pattern[:-1]` is
`dropLast`; `original_bundle_id.split(".")[-1]` is the last split group. -/
def calculateBundleId (originalBundleId : List Char) (profile : ProvisioningProfileM) :
    List Char :=
  let pattern := bundleIdPattern profile.appId
  if pattern = cstr "*" then originalBundleId
  else if pattern.getLast? = some '*' then
    let pre := pattern.dropLast
    if pre.isPrefixOf originalBundleId then originalBundleId
    else pre ++ (pySplitChar '.' originalBundleId).getLastD []
  else pattern

/-- The last dot-separated segment of a bundle id (the specification's
"original's last dot-segment"). -/
def lastDotSegment (s : List Char) : List Char :=
  (pySplitChar '.' s).getLastD []

/-- The effective-bundle-id function as the specification words it
(spec §4.3 step 3): pattern `*` keeps the original; a trailing-`*` pattern
keeps the original on prefix match and otherwise takes the prefix plus the
original's last dot-segment; a concrete pattern is adopted. -/
def effectiveBundleIdSpec (original pattern : List Char) : List Char :=
  if pattern = ['*'] then original
  else if pattern.getLast? = some '*' then
    let pre := pattern.dropLast
    if pre.isPrefixOf original then original
    else pre ++ lastDotSegment original
  else pattern

/-! ## core.py — entitlements generation

`SigningCore.generate_entitlements` (core.py lines 231-272). -/

/-- The nine preservable keys (core.py lines 256-266). -/
def preserveKeys : List (List Char) :=
  [cstr "aps-environment",
   cstr "com.apple.developer.associated-domains",
   cstr "com.apple.developer.icloud-container-identifiers",
   cstr "com.apple.developer.ubiquity-container-identifiers",
   cstr "com.apple.developer.default-data-protection",
   cstr "com.apple.developer.networking.wifi-info",
   cstr "com.apple.developer.healthkit",
   cstr "com.apple.developer.homekit",
   cstr "com.apple.developer.siri"]

/-- One iteration of the preserve loop (core.py lines 268-270):
`if key in app_entitlements and key in profile.entitlements:
entitlements[key] = app_entitlements[key]`. -/
def mergeStep (appEnts profEnts : List (List Char × PValue))
    (e : List (List Char × PValue)) (k : List Char) : List (List Char × PValue) :=
  match pget appEnts k, pget profEnts k with
  | some v, some _ => setKey e k v
  | _, _ => e

/-- `SigningCore.generate_entitlements` translated from core.py lines 231-272.
`app_entitlements = None` and `app_entitlements = {}` behave identically
(both are falsy), so the argument is a plain dict. -/
def generateEntitlements (profile : ProvisioningProfileM) (bundleId : List Char)
    (appEntitlements : List (List Char × PValue)) : List (List Char × PValue) :=
  let e0 := profile.entitlements
  let e1 := setKey e0 (cstr "application-identifier")
    (.str (profile.teamId ++ '.' :: bundleId))
  let e2 := setKey e1 (cstr "com.apple.developer.team-identifier")
    (.str profile.teamId)
  if appEntitlements.isEmpty then e2
  else preserveKeys.foldl (mergeStep appEntitlements profile.entitlements) e2

/-! ## core.py — nested binary signing order

`SigningCore.sign_app` (core.py lines 528-555) iterates the `Frameworks`
directory (`.framework` bundles and bare `.dylib`s), then the `PlugIns`
directory (`.appex` bundles), then signs the main executable. -/

/-- A directory entry as seen by `Path.iterdir()`: its file name, and
whether the nested binary `entry / entry.stem` exists on disk (consulted
for `.framework` and `.appex` bundles). -/
structure FsEntry where
  name : List Char
  innerBinaryExists : Bool

/-- `pathlib.Path.suffix` of a file name: from the last `.`, provided that
dot is neither the first nor the last character. -/
def pySuffixAux : List Char → Option (List Char)
  | [] => none
  | c :: rest =>
      match pySuffixAux rest with
      | some s => some s
      | none => if c = '.' then some (c :: rest) else none

/-- `pathlib.Path.suffix` (a dot at position 0 or at the very end yields
an empty suffix). -/
def pySuffix (name : List Char) : List Char :=
  match name with
  | [] => []
  | _ :: rest =>
      match pySuffixAux rest with
      | some s => if 2 ≤ s.length then s else []
      | none => []

/-- `pathlib.Path.stem`: the name less its suffix. -/
def pyStem (name : List Char) : List Char :=
  name.take (name.length - (pySuffix name).length)

/-- Which of the three signing phases produced a signing target. -/
inductive SignGroup where
  | framework
  | plugin
  | main
deriving DecidableEq

/-- One binary handed to `sign_binary`, tagged with the phase of
`sign_app` that emitted it. -/
structure SignTarget where
  path : List Char
  group : SignGroup
deriving DecidableEq

/-- The framework loop of `sign_app` (core.py lines 528-537). -/
def frameworkTargets (entries : List FsEntry) : List SignTarget :=
  entries.flatMap fun e =>
    if pySuffix e.name = cstr ".framework" then
      if e.innerBinaryExists then
        [⟨e.name ++ '/' :: pyStem e.name, .framework⟩]
      else []
    else if pySuffix e.name = cstr ".dylib" then
      [⟨e.name, .framework⟩]
    else []

/-- The plug-in loop of `sign_app` (core.py lines 539-546). -/
def pluginTargets (entries : List FsEntry) : List SignTarget :=
  entries.flatMap fun e =>
    if pySuffix e.name = cstr ".appex" then
      if e.innerBinaryExists then
        [⟨e.name ++ '/' :: pyStem e.name, .plugin⟩]
      else []
    else []

/-- The `if frameworks_dir.exists()` / `if plugins_dir.exists()` guards:
a missing directory contributes no targets. -/
def optTargets (f : List FsEntry → List SignTarget) :
    Option (List FsEntry) → List SignTarget
  | some entries => f entries
  | none => []

/-- The main-executable step of `sign_app` (core.py lines 548-557). -/
def mainTargets (executableName : List Char) (mainExists : Bool) : List SignTarget :=
  if mainExists then [⟨executableName, .main⟩] else []

/-- The sequence of binaries signed by `sign_app` (core.py lines 528-555),
in invocation order: frameworks, then plug-ins, then the main executable
(when it exists). -/
def signingSequence (frameworksDir pluginsDir : Option (List FsEntry))
    (executableName : List Char) (mainExists : Bool) : List SignTarget :=
  optTargets frameworkTargets frameworksDir ++
    optTargets pluginTargets pluginsDir ++
    mainTargets executableName mainExists

/-! ## core.py — portable ad-hoc back-end

`SigningCore._sign_adhoc` (core.py lines 435-467).  The method reads the
file, checks the big-endian word of the first four bytes against the four
Mach-O magic constants (core.py lines 44-47) and returns `True`; no branch
writes to the file. -/

/-- `struct.unpack(">I", bs)[0]` for a 4-byte list. -/
def beWord : List Nat → Nat
  | [b0, b1, b2, b3] => ((b0 * 256 + b1) * 256 + b2) * 256 + b3
  | _ => 0

/-- The class constants `MH_MAGIC`, `MH_MAGIC_64`, `FAT_MAGIC`, `FAT_CIGAM`
(core.py lines 44-47). -/
def machoMagics : List Nat := [0xfeedface, 0xfeedfacf, 0xcafebabe, 0xbebafeca]

/-- `SigningCore._sign_adhoc` translated from core.py lines 435-467,
returning the method's result together with the file content after the
call.  Every path returns `True` and leaves the bytes untouched: files
shorter than 4 bytes and files whose leading word is not a Mach-O magic
are skipped, and the recognised-magic branch only logs. -/
def signAdhoc (content : List Nat) : Bool × List Nat :=
  if content.length < 4 then (true, content)
  else
    let magic := beWord (content.take 4)
    if magic ∈ machoMagics then (true, content)
    else (true, content)

/-! ## core.py — sign_app and sign_ipa

`SigningCore.sign_app` (core.py lines 469-577) and `SigningCore.sign_ipa`
(core.py lines 579-649).  Filesystem effects are recorded as an action
trace; a raised exception inside the `try` block becomes the
`except`-clause `SigningResult`. -/

/-- `AppInfo` as built by `get_app_info` (models.py lines 122-147). -/
structure AppInfoM where
  bundleId : List Char
  bundleName : List Char
  version : List Char
  build : List Char
  executableName : List Char

/-- An extracted `.app` directory: presence flags and parsed content.
`embeddedProfileEnts` is the result of `get_embedded_entitlements`
(core.py lines 213-225), which returns `{}` on any parse failure. -/
structure AppBundleM where
  present : Bool
  infoPlist : Option AppInfoM
  embeddedProfileEnts : List (List Char × PValue)
  frameworksDir : Option (List FsEntry)
  pluginsDir : Option (List FsEntry)
  mainExists : Bool

/-- Filesystem/IPA effects performed by the core pipeline. -/
inductive CoreAction where
  | extractIpa
  | updateBundleId (b : List Char)
  | writeEntitlements
  | installProfile
  | signBinary (p : List Char)
  | createIpa
deriving DecidableEq

/-- `SigningResult` (models.py lines 173-200), message as characters. -/
structure SigningResultM where
  success : Bool
  message : List Char
  errors : List (List Char)

/-- `pathlib.Path(x)` applied to a `bytes` object: CPython raises
`TypeError` (the constructor requires `str` or an `os.PathLike` whose
`__fspath__` returns `str`).  `sign_app` does exactly this at core.py
line 524 with `profile.raw_data`, which is `bytes`
(models.py line 85). -/
def pyPathOfBytes (_bs : List Nat) : Except PyExc (List Char) :=
  .error .typeError

/-- Rendering of the `TypeError` raised by `pathlib.Path` on `bytes`
(`str(e)` in the `except` clause). -/
def pyExcMessage : PyExc → List Char
  | .typeError => cstr "argument should be a str or an os.PathLike object, not bytes"
  | .attributeError _ => cstr "AttributeError"

/-- `SigningCore.sign_app` translated from core.py lines 469-577, paired
with the trace of filesystem actions it performed.  The `try` body runs:
`get_app_info`, `calculate_bundle_id`/`update_bundle_id`,
`generate_entitlements`, `write_entitlements`, then
`install_provisioning_profile(str(Path(profile.raw_data)), str(app))`;
a raised exception yields the `except`-clause failure result
(core.py lines 572-577). -/
def signApp (app : AppBundleM) (profile : ProvisioningProfileM) :
    SigningResultM × List CoreAction :=
  if ¬ app.present then
    (⟨false, cstr "App not found", [cstr "App bundle does not exist"]⟩, [])
  else
    match app.infoPlist with
    | none =>
        (⟨false, cstr "Failed to parse Info.plist",
          [cstr "Failed to parse Info.plist"]⟩, [])
    | some info =>
        let newBundleId := calculateBundleId info.bundleId profile
        let acts0 :=
          if newBundleId ≠ info.bundleId then [CoreAction.updateBundleId newBundleId]
          else []
        let _ents := generateEntitlements profile newBundleId app.embeddedProfileEnts
        let acts1 := acts0 ++ [CoreAction.writeEntitlements]
        match pyPathOfBytes profile.rawData with
        | .error e => (⟨false, pyExcMessage e, [pyExcMessage e]⟩, acts1)
        | .ok _ =>
            let seq := signingSequence app.frameworksDir app.pluginsDir
              info.executableName app.mainExists
            (⟨true, cstr "App signed successfully", []⟩,
             acts1 ++ [CoreAction.installProfile] ++
               seq.map (fun t => CoreAction.signBinary t.path))

/-- An input archive after `extract_ipa`: whether extraction succeeded and
the `.app` bundles found under `Payload/`. -/
structure ArchiveM where
  extractOk : Bool
  apps : List AppBundleM

/-- `SigningCore.sign_ipa` translated from core.py lines 579-649: extract,
find the app, read its info, optionally override the bundle id, write the
profile to a temp file and install it, run `sign_app`, and only on success
repack with `create_ipa`. -/
def signIpaCore (archive : ArchiveM) (profile : ProvisioningProfileM)
    (newBundleId : Option (List Char)) : SigningResultM × List CoreAction :=
  if ¬ archive.extractOk then
    (⟨false, cstr "Failed to extract IPA", [cstr "Failed to extract IPA"]⟩, [])
  else
    match archive.apps with
    | [] =>
        (⟨false, cstr "No .app bundle found in Payload",
          [cstr "No .app bundle found in Payload"]⟩, [CoreAction.extractIpa])
    | app :: _ =>
        match app.infoPlist with
        | none =>
            (⟨false, cstr "Failed to parse Info.plist",
              [cstr "Failed to parse Info.plist"]⟩, [CoreAction.extractIpa])
        | some info =>
            match newBundleId with
            | some b =>
                let r := signApp { app with infoPlist := some { info with bundleId := b } }
                  profile
                if ¬ r.1.success then
                  (r.1, [CoreAction.extractIpa, CoreAction.updateBundleId b,
                    CoreAction.installProfile] ++ r.2)
                else
                  (r.1, [CoreAction.extractIpa, CoreAction.updateBundleId b,
                    CoreAction.installProfile] ++ r.2 ++ [CoreAction.createIpa])
            | none =>
                let r := signApp app profile
                if ¬ r.1.success then
                  (r.1, [CoreAction.extractIpa, CoreAction.installProfile] ++ r.2)
                else
                  (r.1, [CoreAction.extractIpa, CoreAction.installProfile] ++ r.2 ++
                    [CoreAction.createIpa])

/-! ## annual.py — validation and sign_ipa

`AnnualSigner.validate` (annual.py lines 99-248) and
`AnnualSigner.sign_ipa` (annual.py lines 254-324).  The model starts after
the two parse phases succeed (a fresh signer whose P12 and profile loaded
into `CertificateM` and `ProvisioningProfileM`); `datetime.utcnow()` is the
parameter `now`, its string rendering the parameter `dateStr`, and SHA-1
hex the parameter `sha1hex`. -/

/-- `"\n".join(errors)` on character lists. -/
def joinErrors : List (List Char) → List Char
  | [] => []
  | [e] => e
  | e :: rest => e ++ '\n' :: joinErrors rest

/-- `str(x)` for Python `Optional[str]` (`None` prints as `None`). -/
def optStr : Option (List Char) → List Char
  | some s => s
  | none => cstr "None"

/-- The team-mismatch error message (annual.py lines 228-232). -/
def teamMismatchMsg (cert : CertificateM) (profile : ProvisioningProfileM) : List Char :=
  cstr "Team ID mismatch: certificate=" ++ optStr cert.teamId ++
    cstr ", profile=" ++ profile.teamId

/-- The validation checks of `AnnualSigner.validate` after both parses
succeed (annual.py lines 205-248): certificate validity window, profile
validity window, certificate-in-profile, team-id match; on any error the
method returns `(False, "\n".join(errors))`. -/
def validateChecks (dateStr : Int → List Char) (sha1hex : List Nat → List Char)
    (cert : CertificateM) (profile : ProvisioningProfileM) (now : Int) :
    Bool × List (List Char) :=
  let e1 :=
    if cert.notBefore ≤ now ∧ now ≤ cert.notAfter then []
    else [cstr "Certificate expired on " ++ dateStr cert.notAfter]
  let e2 :=
    if profile.creationDate ≤ now ∧ now ≤ profile.expirationDate then []
    else [cstr "Profile expired on " ++ dateStr profile.expirationDate]
  let e3 :=
    if profile.certificates.any (fun cd => sha1hex cd = cert.fingerprintSha1) then []
    else [cstr "Certificate not found in provisioning profile"]
  let e4 :=
    if cert.teamId = some profile.teamId then []
    else [teamMismatchMsg cert profile]
  let errors := e1 ++ e2 ++ e3 ++ e4
  (errors.isEmpty, errors)

/-- `AnnualSigner.sign_ipa` translated from annual.py lines 254-324 for a
fresh signer (`_validated = False`): validate first; on validation failure
return `SigningResult(success=False, message="Validation failed: " + msg)`
with no core action; otherwise check the input exists and delegate to
`SigningCore.sign_ipa` (whose outcome is the parameter `coreOutcome`). -/
def annualSignIpa (dateStr : Int → List Char) (sha1hex : List Nat → List Char)
    (cert : CertificateM) (profile : ProvisioningProfileM) (now : Int)
    (inputExists : Bool) (coreOutcome : SigningResultM × List CoreAction) :
    SigningResultM × List CoreAction :=
  let v := validateChecks dateStr sha1hex cert profile now
  if ¬ v.1 then
    let msg := joinErrors v.2
    (⟨false, cstr "Validation failed: " ++ msg, [msg]⟩, [])
  else if ¬ inputExists then
    (⟨false, cstr "Input IPA not found", [cstr "Input file does not exist"]⟩, [])
  else coreOutcome

/-! ## apple_auth.py — AppleSession and attribute access

The `AppleSession` dataclass (apple_auth.py lines 47-90) has exactly the
fields `dsid`, `token`, `scnt`, `session_id`, `auth_type`, `team_id`,
`created_at`, `expires_at`, plus the property `is_valid` and the methods
`to_dict` / `from_dict`.  There is no attribute named `session_token`.
Strings on this side are `List Nat` code-point lists (`nstr`). -/

/-- `AppleSession` (apple_auth.py lines 47-61). -/
structure AppleSessionM where
  dsid : List Nat
  token : List Nat
  scnt : List Nat
  sessionId : List Nat
  authType : List Nat
  teamId : Option (List Nat)
  createdAt : Int
  expiresAt : Int

/-- A Python attribute value retrieved from an `AppleSession`. -/
inductive PyAttrVal where
  | str (s : List Nat)
  | optStr (o : Option (List Nat))
  | int (n : Int)
  | boundMethod (nm : List Nat)

/-- `getattr(session, name)`: the attribute surface of `AppleSession`
(dataclass fields from apple_auth.py lines 50-57, the `is_valid` property
from lines 63-65, and the `to_dict`/`from_dict` methods from lines 67-90).
Any other name raises `AttributeError`, modelled as `none`. -/
def sessionGetattr (s : AppleSessionM) (name : List Nat) : Option PyAttrVal :=
  if name = nstr "dsid" then some (.str s.dsid)
  else if name = nstr "token" then some (.str s.token)
  else if name = nstr "scnt" then some (.str s.scnt)
  else if name = nstr "session_id" then some (.str s.sessionId)
  else if name = nstr "auth_type" then some (.str s.authType)
  else if name = nstr "team_id" then some (.optStr s.teamId)
  else if name = nstr "created_at" then some (.int s.createdAt)
  else if name = nstr "expires_at" then some (.int s.expiresAt)
  else if name = nstr "is_valid" then some (.boundMethod (nstr "is_valid"))
  else if name = nstr "to_dict" then some (.boundMethod (nstr "to_dict"))
  else if name = nstr "from_dict" then some (.boundMethod (nstr "from_dict"))
  else none

/-! ## weekly.py — developer-services client

`WeeklySigner` (weekly.py).  JSON values on the wire are `JVal`; the HTTP
layer is the oracle parameter `net`, and each function returns its result
together with the number of HTTP requests actually issued. -/

/-- JSON values in developer-services responses. -/
inductive JVal where
  | str (s : List Nat)
  | num (n : Int)
  | bool (b : Bool)
  | null
  | arr (xs : List JVal)
  | obj (kvs : List (List Nat × JVal))

/-- Lookup in a JSON object. -/
def jget : List (List Nat × JVal) → List Nat → Option JVal
  | [], _ => none
  | (k', v') :: rest, k => if k' = k then some v' else jget rest k

/-- Errors raised (or wrapped) by the weekly signer. -/
inductive WeeklyErr where
  | noActiveSession
  | notAuthenticated
  | pyExc (e : PyExc)
  | invalidUdid (u : List Nat)
  | apiError (msg : List Nat)
  | wrapped (e : PyExc)

/-- `WeeklySigner._dev_request` builds its header dict (weekly.py lines
694-700) by evaluating `self._auth.session.dsid` and then
`self._auth.session.session_token`; an undefined attribute aborts the
dict display with `AttributeError`. -/
def buildDevHeaders (s : AppleSessionM) :
    Except PyExc (List (List Nat × PyAttrVal)) :=
  match sessionGetattr s (nstr "dsid") with
  | none => .error (.attributeError (nstr "dsid"))
  | some dv =>
      match sessionGetattr s (nstr "session_token") with
      | none => .error (.attributeError (nstr "session_token"))
      | some tv =>
          .ok [(nstr "Content-Type", .str (nstr "application/vnd.api+json")),
               (nstr "User-Agent", .str (nstr "Xcode")),
               (nstr "X-Xcode-Version", .str (nstr "15.0 (15A240d)")),
               (nstr "X-Apple-I-Identity-Id", dv),
               (nstr "X-Apple-GS-Token", tv)]

/-- The HTTP layer: a developer-services response per URL. -/
def DevNet : Type := List Nat → Except WeeklyErr (List (List Nat × JVal))

/-- `WeeklySigner._dev_request` translated from weekly.py lines 684-725:
check for an active session, build the headers, then issue the request.
The second component counts HTTP requests actually issued. -/
def devRequest (session : Option AppleSessionM) (net : DevNet) (url : List Nat) :
    Except WeeklyErr (List (List Nat × JVal)) × Nat :=
  match session with
  | none => (.error .noActiveSession, 0)
  | some s =>
      match buildDevHeaders s with
      | .error e => (.error (.pyExc e), 0)
      | .ok _ => (net url, 1)

/-- The mutable client state of a `WeeklySigner` (weekly.py lines 107-121):
the authenticator's session, the selected team, the certificate cache and
the `bundle_id -> app_id` cache. -/
structure WeeklyState where
  session : Option AppleSessionM
  teamId : Option (List Nat)
  certificates : List (List Nat)
  appIds : List (List Nat × List Nat)

/-- `AppleAuthenticator.is_authenticated` (apple_auth.py lines 524-526):
a session exists and `utcnow() < expires_at`. -/
def isAuthenticated (st : WeeklyState) (now : Int) : Bool :=
  match st.session with
  | some s => now < s.expiresAt
  | none => false

/-- `WeeklySigner.get_certificates` translated from weekly.py lines
194-215: raise when unauthenticated; otherwise `_dev_request`, returning
`response.get("certRequests", [])`, with any exception logged and turned
into `[]`. -/
def getCertificates (st : WeeklyState) (net : DevNet) (now : Int) :
    Except WeeklyErr (List JVal) × Nat :=
  if ¬ isAuthenticated st now then (.error .notAuthenticated, 0)
  else
    match devRequest st.session net (nstr "listAllDevelopmentCerts") with
    | (.error _, n) => (.ok [], n)
    | (.ok resp, n) =>
        (.ok (match jget resp (nstr "certRequests") with
              | some (.arr xs) => xs
              | _ => []), n)

/-! ## weekly.py — device registration and UDID validation

`WeeklySigner.register_device` (weekly.py lines 413-456) and
`WeeklySigner._is_device_registered` (weekly.py lines 458-474). -/

/-- Python `str.strip()` restricted to ASCII whitespace, on code points. -/
def pyStripN (s : List Nat) : List Nat :=
  let ws : List Nat := [32, 9, 10, 13, 11, 12]
  ((s.dropWhile (· ∈ ws)).reverse.dropWhile (· ∈ ws)).reverse

/-- Python `str.upper()` on an ASCII code point. -/
def pyUpperChar (c : Nat) : Nat :=
  if 97 ≤ c ∧ c ≤ 122 then c - 32 else c

/-- Python `str.upper()` on code points (ASCII range). -/
def pyUpperN (s : List Nat) : List Nat := s.map pyUpperChar

/-- The validator inlined in `register_device` (weekly.py lines 428-430):
`udid = udid.strip().upper()`, then length 40 and every character in
`'0123456789ABCDEF-'`. -/
def udidFormatOk (udid : List Nat) : Bool :=
  let u := pyUpperN (pyStripN udid)
  u.length = 40 && u.all (· ∈ nstr "0123456789ABCDEF-")

/-- `device.get("deviceNumber", "").upper() == udid.upper()` over the
`devices` array of a `listDevices` response (weekly.py lines 467-469). -/
def deviceInList (resp : List (List Nat × JVal)) (udid : List Nat) : Bool :=
  match jget resp (nstr "devices") with
  | some (.arr xs) =>
      xs.any fun d =>
        match d with
        | .obj kv =>
            (match jget kv (nstr "deviceNumber") with
             | some (.str s) => pyUpperN s
             | _ => []) = pyUpperN udid
        | _ => false
  | _ => false

/-- `WeeklySigner.register_device` translated from weekly.py lines 413-456:
authentication check, UDID validation, `_is_device_registered` (whose own
`try/except` turns any failure into `False`), then `addDevice`; an
exception in the outer `try` is re-raised as a `WeeklySigningError`
(modelled `.wrapped`).  The second component counts HTTP requests. -/
def registerDevice (st : WeeklyState) (net : DevNet) (now : Int)
    (udid : List Nat) : Except WeeklyErr Unit × Nat :=
  if ¬ isAuthenticated st now then (.error .notAuthenticated, 0)
  else
    let u := pyUpperN (pyStripN udid)
    if ¬ udidFormatOk udid then
      (.error (.invalidUdid u), 0)
    else
      let r1 := devRequest st.session net (nstr "listDevices")
      let registered :=
        match r1.1 with
        | .ok resp => deviceInList resp u
        | .error _ => false
      if registered then (.ok (), r1.2)
      else
        let r2 := devRequest st.session net (nstr "addDevice")
        match r2.1 with
        | .ok _ => (.ok (), r1.2 + r2.2)
        | .error (.pyExc e) => (.error (.wrapped e), r1.2 + r2.2)
        | .error e => (.error e, r1.2 + r2.2)

/-- `WeeklySigner._get_app_id` (weekly.py lines 391-407): `listAppIds`
with any exception turned into `None`. -/
def getAppId (st : WeeklyState) (net : DevNet) (bundleId : List Nat) :
    Option (List Nat) × Nat :=
  match devRequest st.session net (nstr "listAppIds") with
  | (.error _, n) => (none, n)
  | (.ok resp, n) =>
      (match jget resp (nstr "appIds") with
       | some (.arr xs) =>
           (xs.filterMap fun a =>
             match a with
             | .obj kv =>
                 match jget kv (nstr "identifier") with
                 | some (.str s) =>
                     if s = bundleId then
                       match jget kv (nstr "appIdId") with
                       | some (.str v) => some v
                       | _ => none
                     else none
                 | _ => none
             | _ => none).head?
       | _ => none, n)

/-- `WeeklySigner.register_app_id` translated from weekly.py lines 341-389:
authentication check, cache lookup, `_get_app_id`, then `addAppId`; any
exception becomes a `WeeklySigningError`. -/
def registerAppId (st : WeeklyState) (net : DevNet) (now : Int)
    (bundleId : List Nat) : Except WeeklyErr (List Nat) × Nat :=
  if ¬ isAuthenticated st now then (.error .notAuthenticated, 0)
  else
    match jget (st.appIds.map fun p => (p.1, JVal.str p.2)) bundleId with
    | some (.str v) => (.ok v, 0)
    | _ =>
        let g := getAppId st net bundleId
        match g.1 with
        | some existing => (.ok existing, g.2)
        | none =>
            let r2 := devRequest st.session net (nstr "addAppId")
            match r2.1 with
            | .ok resp =>
                (.ok (match jget resp (nstr "appId") with
                      | some (.obj kv) =>
                          match jget kv (nstr "appIdId") with
                          | some (.str v) => v
                          | _ => []
                      | _ => []), g.2 + r2.2)
            | .error (.pyExc e) => (.error (.wrapped e), g.2 + r2.2)
            | .error e => (.error e, g.2 + r2.2)

/-- `WeeklySigner.create_certificate` translated from weekly.py lines
217-311: authentication and crypto-availability checks, CSR generation,
then `submitDevelopmentCSR`; any exception becomes a
`WeeklySigningError`. -/
def createCertificate (st : WeeklyState) (net : DevNet) (now : Int)
    (cryptoAvailable : Bool) : Except WeeklyErr (List Nat) × Nat :=
  if ¬ isAuthenticated st now then (.error .notAuthenticated, 0)
  else if ¬ cryptoAvailable then (.error (.apiError (nstr "cryptography module required")), 0)
  else
    let r := devRequest st.session net (nstr "submitDevelopmentCSR")
    match r.1 with
    | .ok resp =>
        (match jget resp (nstr "certRequest") with
         | some (.obj kv) =>
             match jget kv (nstr "certContent") with
             | some (.str v) => .ok v
             | _ => .error (.apiError (nstr "No certificate returned from Apple"))
         | _ => .error (.apiError (nstr "No certificate returned from Apple")),
         r.2)
    | .error (.pyExc e) => (.error (.wrapped e), r.2)
    | .error e => (.error e, r.2)

/-- `WeeklySigner.create_provisioning_profile` translated from weekly.py
lines 480-565: authentication check, `register_device`, `register_app_id`,
then `downloadTeamProvisioningProfile`; a `WeeklySigningError` from the
nested calls propagates. -/
def createProvisioningProfile (st : WeeklyState) (net : DevNet) (now : Int)
    (bundleId deviceUdid : List Nat) : Except WeeklyErr (List Nat) × Nat :=
  if ¬ isAuthenticated st now then (.error .notAuthenticated, 0)
  else
    let rd := registerDevice st net now deviceUdid
    match rd.1 with
    | .error e => (.error e, rd.2)
    | .ok _ =>
        let ra := registerAppId st net now bundleId
        match ra.1 with
        | .error e => (.error e, rd.2 + ra.2)
        | .ok _ =>
            let rp := devRequest st.session net (nstr "downloadTeamProvisioningProfile")
            match rp.1 with
            | .ok resp =>
                (match jget resp (nstr "provisioningProfile") with
                 | some (.obj kv) =>
                     match jget kv (nstr "encodedProfile") with
                     | some (.str v) => .ok v
                     | _ => .error (.apiError (nstr "No profile returned from Apple"))
                 | _ => .error (.apiError (nstr "No profile returned from Apple")),
                 rd.2 + ra.2 + rp.2)
            | .error (.pyExc e) => (.error (.wrapped e), rd.2 + ra.2 + rp.2)
            | .error e => (.error e, rd.2 + ra.2 + rp.2)

/-- Is an `Except` a success? -/
def isOkE {E A : Type} : Except E A → Bool
  | .ok _ => true
  | .error _ => false

/-- Did a weekly-signer call fail with the invalid-UDID error? -/
def isInvalidUdidErr {A : Type} : Except WeeklyErr A → Bool
  | .error (.invalidUdid _) => true
  | _ => false

/-! ## Concrete evaluation inputs

Closed inputs used to evaluate the models at scenario-level data
(spec §8, scenarios E1-E6). -/

/-- A profile whose app id yields the bundle-id pattern `com.example.*`
(spec property 4). -/
def exProfilePattern : ProvisioningProfileM :=
  { uuid := [], name := [], appId := cstr "ABCDE12345.com.example.*",
    teamId := cstr "ABCDE12345", teamName := [], creationDate := 0,
    expirationDate := 100, devices := [], entitlements := [],
    certificates := [], rawData := [] }

/-- An enterprise-style plist: `ProvisionsAllDevices` true AND a non-empty
device list. -/
def exPlistEnterprise : List (List Char × PValue) :=
  [(cstr "ProvisionsAllDevices", .bool true),
   (cstr "ProvisionedDevices", .arr [.str (cstr "0000000000000000000000000000000000000000")])]

/-- A well-formed authenticated Apple session. -/
def exSession : AppleSessionM :=
  { dsid := nstr "12345", token := nstr "tok", scnt := [], sessionId := [],
    authType := nstr "password", teamId := none, createdAt := 0, expiresAt := 100 }

/-- A weekly-signer state holding `exSession` and empty caches. -/
def exWeeklyState : WeeklyState :=
  { session := some exSession, teamId := some (nstr "ABCDE12345"),
    certificates := [], appIds := [] }

/-- A network oracle that would answer every request successfully (the
models below never reach it). -/
def exNet : DevNet := fun _ => .ok []

/-- A whitespace-wrapped UDID: a space followed by forty `0` characters
(41 code points in total). -/
def exPaddedUdid : List Nat := 32 :: List.replicate 40 48

/-- A 64-byte file whose on-disk first four bytes are `CF FA ED FE`, the
little-endian layout of the 64-bit Mach-O magic (scenario E6). -/
def exMachoFile : List Nat := [0xcf, 0xfa, 0xed, 0xfe] ++ List.replicate 60 0

/-- An E1-style app bundle: parsed `Info.plist`, one framework, one
plug-in, main executable present. -/
def exAppE1 : AppBundleM :=
  { present := true,
    infoPlist := some { bundleId := cstr "com.example.demo",
                        bundleName := cstr "Demo", version := cstr "1.0",
                        build := cstr "1", executableName := cstr "Demo" },
    embeddedProfileEnts := [],
    frameworksDir := some [⟨cstr "Lib.framework", true⟩],
    pluginsDir := some [⟨cstr "Widget.appex", true⟩],
    mainExists := true }

/-- An E1-style extracted archive holding `exAppE1`. -/
def exArchiveE1 : ArchiveM := { extractOk := true, apps := [exAppE1] }

/-- An E1-style profile (pattern `ABCDE12345.*`, valid until far future). -/
def exProfileE1 : ProvisioningProfileM :=
  { uuid := cstr "UUID-1", name := cstr "Demo Profile",
    appId := cstr "ABCDE12345.*", teamId := cstr "ABCDE12345",
    teamName := cstr "Example Team", creationDate := 0,
    expirationDate := 4070908800, devices := [],
    entitlements := [(cstr "application-identifier", .str (cstr "ABCDE12345.*")),
                     (cstr "get-task-allow", .bool true)],
    certificates := [[1, 2, 3]], rawData := [10, 20, 30] }

/-- An E1-style certificate for team `ABCDE12345`. -/
def exCertE1 : CertificateM :=
  { serialNumber := cstr "01", commonName := cstr "Apple Development: A (XYZ)",
    organization := none, teamId := some (cstr "ABCDE12345"),
    notBefore := 0, notAfter := 4070908800,
    fingerprintSha1 := cstr "AB12", fingerprintSha256 := cstr "CD34",
    rawData := [1], privateKey := some [2] }

/-- The E2 certificate: same as `exCertE1` but team `FGHIJ67890`. -/
def exCertE2 : CertificateM :=
  { exCertE1 with teamId := some (cstr "FGHIJ67890") }

/-- The E3 profile: same as `exProfileE1` but expired in the past. -/
def exProfileE3 : ProvisioningProfileM :=
  { exProfileE1 with expirationDate := 946684800 }

/-- A date renderer and a SHA-1 oracle for evaluating the annual signer at
concrete inputs. -/
def exDateStr : Int → List Char := fun _ => cstr "2000-01-01"

/-- A SHA-1 oracle mapping the embedded certificate of `exProfileE1` to the
fingerprint of `exCertE1`. -/
def exSha1 : List Nat → List Char := fun bs => if bs = [1, 2, 3] then cstr "AB12" else []

/-! ## Supporting lemmas -/

theorem pget_setKey {V : Type} (d : List (List Char × V)) (k : List Char) (v : V)
    (k' : List Char) :
    pget (setKey d k v) k' = if k' = k then some v else pget d k' := by
  induction d with
  | nil =>
      by_cases h : k' = k
      · simp [setKey, pget, h]
      · simp only [setKey, pget]
        rw [if_neg (fun hh => h hh.symm), if_neg h]
  | cons hd tl ih =>
      obtain ⟨k0, v0⟩ := hd
      by_cases h0 : k0 = k
      · subst h0
        by_cases h' : k' = k0
        · simp [setKey, pget, h']
        · simp only [setKey, if_pos rfl, pget]
          rw [if_neg (fun hh => h' hh.symm), if_neg h',
            if_neg (fun hh => h' hh.symm)]
      · by_cases h' : k0 = k'
        · simp only [setKey, if_neg h0, pget, if_pos h']
          rw [if_neg (fun hh => h0 (h'.trans hh))]
        · simp only [setKey, if_neg h0, pget, if_neg h']
          exact ih

theorem pget_mergeFold (appEnts profEnts : List (List Char × PValue))
    (ks : List (List Char)) (e : List (List Char × PValue)) (k : List Char) :
    pget (ks.foldl (mergeStep appEnts profEnts) e) k =
      if k ∈ ks ∧ (pget appEnts k).isSome ∧ (pget profEnts k).isSome
      then pget appEnts k else pget e k := by
  induction ks generalizing e with
  | nil => simp
  | cons a t ih =>
      rw [List.foldl_cons, ih]
      by_cases hc : k ∈ t ∧ (pget appEnts k).isSome ∧ (pget profEnts k).isSome
      · rw [if_pos hc, if_pos ⟨List.mem_cons_of_mem a hc.1, hc.2⟩]
      · rw [if_neg hc]
        by_cases hk : k = a
        · subst hk
          by_cases hs : (pget appEnts k).isSome ∧ (pget profEnts k).isSome
          · obtain ⟨v, hv⟩ := Option.isSome_iff_exists.mp hs.1
            obtain ⟨w, hw⟩ := Option.isSome_iff_exists.mp hs.2
            rw [if_pos ⟨List.mem_cons_self k t, hs⟩]
            simp [mergeStep, hv, hw, pget_setKey]
          · rw [if_neg (fun hh => hs hh.2)]
            rcases hv : pget appEnts k with _ | v
            · simp [mergeStep, hv]
            · rcases hw : pget profEnts k with _ | w
              · simp [mergeStep, hv, hw]
              · exact absurd ⟨by simp [hv], by simp [hw]⟩ hs
        · have hnotc : ¬((k ∈ a :: t) ∧ (pget appEnts k).isSome ∧
              (pget profEnts k).isSome) := by
            rintro ⟨hm, hrest⟩
            rcases List.mem_cons.mp hm with h | h
            · exact hk h
            · exact hc ⟨h, hrest⟩
          rw [if_neg hnotc]
          rcases hv : pget appEnts a with _ | v
          · simp [mergeStep, hv]
          · rcases hw : pget profEnts a with _ | w
            · simp [mergeStep, hv, hw]
            · simp [mergeStep, hv, hw, pget_setKey, hk]

theorem pget_nil {V : Type} (k : List Char) : pget ([] : List (List Char × V)) k = none :=
  rfl

/-- Every target emitted by the framework loop carries the `framework` tag. -/
theorem group_of_mem_frameworkTargets {t : SignTarget} {es : List FsEntry}
    (h : t ∈ frameworkTargets es) : t.group = .framework := by
  unfold frameworkTargets at h
  rw [List.mem_flatMap] at h
  obtain ⟨e, _, hmem⟩ := h
  by_cases h1 : pySuffix e.name = cstr ".framework"
  · rw [if_pos h1] at hmem
    by_cases h2 : e.innerBinaryExists
    · rw [if_pos h2, List.mem_singleton] at hmem
      subst hmem; rfl
    · rw [if_neg h2] at hmem; cases hmem
  · rw [if_neg h1] at hmem
    by_cases h2 : pySuffix e.name = cstr ".dylib"
    · rw [if_pos h2, List.mem_singleton] at hmem
      subst hmem; rfl
    · rw [if_neg h2] at hmem; cases hmem

/-- Every target emitted by the plug-in loop carries the `plugin` tag. -/
theorem group_of_mem_pluginTargets {t : SignTarget} {es : List FsEntry}
    (h : t ∈ pluginTargets es) : t.group = .plugin := by
  unfold pluginTargets at h
  rw [List.mem_flatMap] at h
  obtain ⟨e, _, hmem⟩ := h
  by_cases h1 : pySuffix e.name = cstr ".appex"
  · rw [if_pos h1] at hmem
    by_cases h2 : e.innerBinaryExists
    · rw [if_pos h2, List.mem_singleton] at hmem
      subst hmem; rfl
    · rw [if_neg h2] at hmem; cases hmem
  · rw [if_neg h1] at hmem; cases hmem

/-- Index bound from a successful `getElem?`. -/
theorem lt_length_of_getElem? {α : Type} {A : List α} {i : Nat} {x : α}
    (h : A[i]? = some x) : i < A.length := by
  by_contra hc
  push_neg at hc
  rw [List.getElem?_eq_none hc] at h
  cases h

/-- Membership of an error string in a joined error message. -/
theorem infix_joinErrors {m : List Char} {l : List (List Char)} (h : m ∈ l) :
    m <:+: joinErrors l := by
  induction l with
  | nil => cases h
  | cons a t ih =>
      rcases List.mem_cons.mp h with h' | h'
      · subst h'
        cases t with
        | nil => exact List.infix_refl m
        | cons b t' =>
            exact ⟨[], '\n' :: joinErrors (b :: t'), by simp [joinErrors]⟩
      · have hit := ih h'
        cases t with
        | nil => cases h'
        | cons b t' =>
            obtain ⟨s, u, hsu⟩ := hit
            exact ⟨a ++ '\n' :: s, u, by
              simp only [joinErrors]
              rw [← hsu]
              simp⟩

/-- An infix stays an infix after prepending on the left. -/
theorem infix_append_left {α : Type} {a b : List α} (c : List α) (h : a <:+: b) :
    a <:+: c ++ b := by
  obtain ⟨s, t, hst⟩ := h
  exact ⟨c ++ s, t, by rw [← hst]; simp⟩

/-- The UDID character class after `upper()` equals the case-insensitive
hex-or-dash class. -/
theorem udidChar_equiv (c : Nat) :
    (pyUpperChar c ∈ nstr "0123456789ABCDEF-") ↔
      (48 ≤ c ∧ c ≤ 57 ∨ 65 ≤ c ∧ c ≤ 70 ∨ 97 ≤ c ∧ c ≤ 102 ∨ c = 45) := by
  have hl : nstr "0123456789ABCDEF-" =
      [48, 49, 50, 51, 52, 53, 54, 55, 56, 57, 65, 66, 67, 68, 69, 70, 45] := by
    decide
  rw [hl]
  unfold pyUpperChar
  by_cases h : 97 ≤ c ∧ c ≤ 122
  · rw [if_pos h]
    simp only [List.mem_cons, List.not_mem_nil, or_false]
    omega
  · rw [if_neg h]
    simp only [List.mem_cons, List.not_mem_nil, or_false]
    omega

/-- The inline UDID validator, characterised over the stripped string. -/
theorem udidFormatOk_iff (u : List Nat) :
    udidFormatOk u = true ↔
      ((pyStripN u).length = 40 ∧ ∀ c ∈ pyStripN u,
        48 ≤ c ∧ c ≤ 57 ∨ 65 ≤ c ∧ c ≤ 70 ∨ 97 ≤ c ∧ c ≤ 102 ∨ c = 45) := by
  unfold udidFormatOk pyUpperN
  rw [Bool.and_eq_true]
  constructor
  · rintro ⟨h1, h2⟩
    rw [List.all_eq_true] at h2
    constructor
    · have := of_decide_eq_true h1
      simpa using this
    · intro c hc
      have := h2 (pyUpperChar c) (List.mem_map_of_mem pyUpperChar hc)
      exact (udidChar_equiv c).mp (of_decide_eq_true this)
  · rintro ⟨h1, h2⟩
    constructor
    · exact decide_eq_true (by simpa using h1)
    · rw [List.all_eq_true]
      intro x hx
      rw [List.mem_map] at hx
      obtain ⟨c, hc, rfl⟩ := hx
      exact decide_eq_true ((udidChar_equiv c).mpr (h2 c hc))

/-- Building the developer-service headers always fails: `AppleSession`
has no `session_token` attribute. -/
theorem buildDevHeaders_eq (s : AppleSessionM) :
    buildDevHeaders s = .error (.attributeError (nstr "session_token")) := rfl

/-- `_dev_request` with a live session raises `AttributeError` while
building headers and issues no HTTP request. -/
theorem devRequest_some (s : AppleSessionM) (net : DevNet) (url : List Nat) :
    devRequest (some s) net url =
      (.error (.pyExc (.attributeError (nstr "session_token"))), 0) := rfl

/-- An authenticated state holds a session. -/
theorem session_of_isAuthenticated {st : WeeklyState} {now : Int}
    (h : isAuthenticated st now = true) : ∃ s, st.session = some s := by
  unfold isAuthenticated at h
  cases hs : st.session with
  | none => rw [hs] at h; cases h
  | some s => exact ⟨s, rfl⟩

/-- `_dev_request` without a session raises and issues no HTTP request. -/
theorem devRequest_none (net : DevNet) (url : List Nat) :
    devRequest none net url = (.error .noActiveSession, 0) := rfl

/-- Splitting a successful lookup in an appended list. -/
theorem idx_append_cases {α : Type} {A B : List α} {i : Nat} {x : α}
    (h : (A ++ B)[i]? = some x) :
    (i < A.length ∧ A[i]? = some x) ∨ (A.length ≤ i ∧ B[i - A.length]? = some x) := by
  rw [List.getElem?_append] at h
  by_cases hi : i < A.length
  · rw [if_pos hi] at h
    exact Or.inl ⟨hi, h⟩
  · rw [if_neg hi] at h
    exact Or.inr ⟨Nat.le_of_not_lt hi, h⟩

/-! ## Claims -/

/-- `sign_app` always fails and never reaches the repack step: it reaches
`install_provisioning_profile(str(Path(profile.raw_data)), ...)` (core.py
line 524), where `profile.raw_data` is `bytes` (models.py line 85) and
`pathlib.Path` raises `TypeError`; the exception is caught at core.py
lines 572-577. -/
theorem signApp_fails (a : AppBundleM) (profile : ProvisioningProfileM) :
    (signApp a profile).1.success = false ∧
      CoreAction.createIpa ∉ (signApp a profile).2 := by
  unfold signApp
  split
  · simp
  · split
    · simp
    · simp only [pyPathOfBytes]
      exact ⟨by simp, by split <;> simp⟩

/-- C1: evaluation of the code at the claim's scenario.  `sign_ipa` can
never return `success=true`, and never writes an output archive: every
run of `sign_app` hits the `Path(profile.raw_data)` `TypeError`
(`signApp_fails`), the failure result is returned, and `create_ipa` never
runs.  This contradicts the claim's (and spec scenario E1's) expected
`success=true` with the profile embedded. -/
theorem claimC1_sign_ipa_never_succeeds (archive : ArchiveM)
    (profile : ProvisioningProfileM) (newBundleId : Option (List Char)) :
    (signIpaCore archive profile newBundleId).1.success = false ∧
      CoreAction.createIpa ∉ (signIpaCore archive profile newBundleId).2 := by
  rcases archive with ⟨extractOk, apps⟩
  cases extractOk with
  | false => simp [signIpaCore]
  | true =>
      cases apps with
      | nil => simp [signIpaCore]
      | cons app rest =>
          cases hinfo : app.infoPlist with
          | none => simp [signIpaCore, hinfo]
          | some info =>
              cases newBundleId with
              | some b =>
                  have h := signApp_fails
                    { app with infoPlist := some { info with bundleId := b } } profile
                  simp [signIpaCore, hinfo, h.1, h.2]
              | none =>
                  have h := signApp_fails app profile
                  simp [signIpaCore, hinfo, h.1, h.2]

/-- C2: evaluation of the code at the claim's scenario.  The portable
ad-hoc back-end modifies no file at all: `_sign_adhoc` returns `True` and
leaves the bytes untouched on every input, so no SuperBlob is ever
appended and the post-signing size equals the pre-signing size.
Moreover the on-disk little-endian 64-bit Mach-O magic `CF FA ED FE`
is not even recognised, because the code compares the big-endian word
`0xCFFAEDFE` against the magic constants.  (The claim's second half —
unrecognised first bytes are left untouched with silent success — is what
the code does, but it does so for Mach-O files too.) -/
theorem claimC2_adhoc_never_appends :
    (∀ content : List Nat, signAdhoc content = (true, content)) ∧
    signAdhoc exMachoFile = (true, exMachoFile) ∧
    (signAdhoc exMachoFile).2.length = exMachoFile.length ∧
    exMachoFile.take 4 = [0xcf, 0xfa, 0xed, 0xfe] ∧
    beWord (exMachoFile.take 4) ∉ machoMagics := by
  refine ⟨?_, by decide, by decide, by decide, by decide⟩
  intro content
  unfold signAdhoc
  by_cases h : content.length < 4
  · rw [if_pos h]
  · rw [if_neg h]
    by_cases hm : beWord (content.take 4) ∈ machoMagics
    · rw [if_pos hm]
    · rw [if_neg hm]

/-- C5: the effective-bundle-id computation (`calculate_bundle_id`,
core.py lines 311-338, over the pattern from
`ProvisioningProfile.bundle_id_pattern`, models.py lines 104-109) agrees
with the specification's case analysis — wildcard `*` keeps the original,
a trailing-`*` pattern keeps the original on prefix match and otherwise
adopts prefix + last dot-segment, and a concrete pattern is adopted — and
on the profile pattern `com.example.*`: `f("com.example.foo") =
"com.example.foo"` and `f("com.other.bar") = "com.example.bar"`. -/
theorem claimC5_effective_bundle_id :
    (∀ (original : List Char) (profile : ProvisioningProfileM),
      calculateBundleId original profile =
        effectiveBundleIdSpec original (bundleIdPattern profile.appId)) ∧
    calculateBundleId (cstr "com.example.foo") exProfilePattern =
      cstr "com.example.foo" ∧
    calculateBundleId (cstr "com.other.bar") exProfilePattern =
      cstr "com.example.bar" ∧
    bundleIdPattern exProfilePattern.appId = cstr "com.example.*" := by
  refine ⟨fun original profile => rfl, by decide, by decide, by decide⟩

/-- C3: for every signer holding a session, `_dev_request` evaluates
`self._auth.session.session_token` while building the header dict
(weekly.py line 699); `AppleSession` defines a field `token` but no
attribute `session_token` (apple_auth.py lines 47-90), so an
`AttributeError` is raised before any HTTP request is issued (the request
count is 0).  Consequently `get_certificates` returns `[]`, and
`register_device`, `register_app_id` (with its in-process cache empty, as
it is for every state the class itself can produce), `create_certificate`
and `create_provisioning_profile` never succeed. -/
theorem claimC3_dev_request_attribute_error :
    (∀ s : AppleSessionM, sessionGetattr s (nstr "session_token") = none ∧
      (sessionGetattr s (nstr "token")).isSome = true) ∧
    (∀ (s : AppleSessionM) (net : DevNet) (url : List Nat),
      devRequest (some s) net url =
        (.error (.pyExc (.attributeError (nstr "session_token"))), 0)) ∧
    (∀ (st : WeeklyState) (net : DevNet) (now : Int),
      isAuthenticated st now = true → getCertificates st net now = (.ok [], 0)) ∧
    (∀ (st : WeeklyState) (net : DevNet) (now : Int) (udid : List Nat),
      isAuthenticated st now = true →
        isOkE (registerDevice st net now udid).1 = false) ∧
    (∀ (st : WeeklyState) (net : DevNet) (now : Int) (bundleId : List Nat),
      isAuthenticated st now = true → st.appIds = [] →
        isOkE (registerAppId st net now bundleId).1 = false) ∧
    (∀ (st : WeeklyState) (net : DevNet) (now : Int) (cryptoAvailable : Bool),
      isAuthenticated st now = true →
        isOkE (createCertificate st net now cryptoAvailable).1 = false) ∧
    (∀ (st : WeeklyState) (net : DevNet) (now : Int) (bundleId deviceUdid : List Nat),
      isAuthenticated st now = true →
        isOkE (createProvisioningProfile st net now bundleId deviceUdid).1 = false) := by
  have hdev : ∀ (st : WeeklyState) (now : Int), isAuthenticated st now = true →
      ∀ (net : DevNet) (url : List Nat),
        devRequest st.session net url =
          (.error (.pyExc (.attributeError (nstr "session_token"))), 0) := by
    intro st now h net url
    obtain ⟨s, hs⟩ := session_of_isAuthenticated h
    rw [hs]
    exact devRequest_some s net url
  have hregdev : ∀ (st : WeeklyState) (net : DevNet) (now : Int) (udid : List Nat),
      isAuthenticated st now = true →
        isOkE (registerDevice st net now udid).1 = false := by
    intro st net now udid h
    unfold registerDevice
    rw [if_neg (by simp [h])]
    by_cases hf : udidFormatOk udid
    · rw [if_neg (by simp [hf])]
      rw [hdev st now h net (nstr "listDevices"), hdev st now h net (nstr "addDevice")]
      rfl
    · rw [if_pos (by simp [hf])]
      rfl
  have hregapp : ∀ (st : WeeklyState) (net : DevNet) (now : Int) (bundleId : List Nat),
      isAuthenticated st now = true → st.appIds = [] →
        isOkE (registerAppId st net now bundleId).1 = false := by
    intro st net now bundleId h hempty
    unfold registerAppId
    rw [if_neg (by simp [h]), hempty]
    unfold getAppId
    rw [hdev st now h net (nstr "listAppIds"), hdev st now h net (nstr "addAppId")]
    rfl
  refine ⟨fun s => ⟨rfl, rfl⟩, fun s net url => devRequest_some s net url,
    ?_, hregdev, hregapp, ?_, ?_⟩
  · intro st net now h
    unfold getCertificates
    rw [if_neg (by simp [h]), hdev st now h net (nstr "listAllDevelopmentCerts")]
  · intro st net now cryptoAvailable h
    unfold createCertificate
    rw [if_neg (by simp [h])]
    by_cases hc : cryptoAvailable
    · rw [if_neg (by simp [hc]), hdev st now h net (nstr "submitDevelopmentCSR")]
      rfl
    · rw [if_pos (by simp [hc])]
      rfl
  · intro st net now bundleId deviceUdid h
    unfold createProvisioningProfile
    rw [if_neg (by simp [h])]
    have hd := hregdev st net now deviceUdid h
    rcases hr : (registerDevice st net now deviceUdid).1 with e | u
    · simp only [hr]
      rfl
    · rw [hr] at hd
      simp [isOkE] at hd

/-- C3 witness: the theorem applied to the concrete authenticated state
`exWeeklyState` at time 0, with the all-successful network oracle
`exNet`. -/
theorem claimC3_witness :
    getCertificates exWeeklyState exNet 0 = (.ok [], 0) ∧
    isOkE (registerDevice exWeeklyState exNet 0 (nstr "X")).1 = false ∧
    isOkE (registerAppId exWeeklyState exNet 0 (nstr "com.example.demo")).1 = false ∧
    isOkE (createCertificate exWeeklyState exNet 0 true).1 = false ∧
    isOkE (createProvisioningProfile exWeeklyState exNet 0
      (nstr "com.example.demo") (nstr "X")).1 = false :=
  ⟨claimC3_dev_request_attribute_error.2.2.1 exWeeklyState exNet 0 (by decide),
   claimC3_dev_request_attribute_error.2.2.2.1 exWeeklyState exNet 0 (nstr "X")
     (by decide),
   claimC3_dev_request_attribute_error.2.2.2.2.1 exWeeklyState exNet 0
     (nstr "com.example.demo") (by decide) rfl,
   claimC3_dev_request_attribute_error.2.2.2.2.2.1 exWeeklyState exNet 0 true
     (by decide),
   claimC3_dev_request_attribute_error.2.2.2.2.2.2 exWeeklyState exNet 0
     (nstr "com.example.demo") (nstr "X") (by decide)⟩

/-- C4 counterexample: on the byte string `"<plist<?xml</plist>"` the
earliest opening marker is `<plist` at index 0, but `_extract_plist`
prefers `<?xml` (index 6) whenever it occurs anywhere, so the returned
slice differs from the claim's earliest-marker slice. -/
theorem claimC4_counterexample :
    exOk? (extractPlist (nstr "<plist<?xml</plist>")) =
      some (nstr "<?xml</plist>") ∧
    exOk? (extractCmsPayloadClaim (nstr "<plist<?xml</plist>")) =
      some (nstr "<plist<?xml</plist>") ∧
    nstr "<?xml</plist>" ≠ nstr "<plist<?xml</plist>" := by
  decide

/-- C4 (amended): `_extract_plist` (crypto_utils.py lines 221-233) slices
from the first occurrence of `<?xml`, or — only when `<?xml` is absent —
from the first occurrence of `<plist`, through the end of the last
`</plist>`; it fails with the `CryptoError` exactly when no opening marker
is found or no `</plist>` is found. -/
theorem claimC4_extract_plist (data : List Nat) :
    (∀ i j, bytesFind (nstr "<?xml") data = some i →
      bytesRFind (nstr "</plist>") data = some j →
      extractPlist data = .ok ((data.take (j + 8)).drop i)) ∧
    (bytesFind (nstr "<?xml") data = none →
      ∀ i j, bytesFind (nstr "<plist") data = some i →
        bytesRFind (nstr "</plist>") data = some j →
        extractPlist data = .ok ((data.take (j + 8)).drop i)) ∧
    (((bytesFind (nstr "<?xml") data = none ∧
        bytesFind (nstr "<plist") data = none) ∨
       bytesRFind (nstr "</plist>") data = none) ↔
      extractPlist data = .error .notACmsPlist) := by
  have fwd1 : ∀ i j, bytesFind (nstr "<?xml") data = some i →
      bytesRFind (nstr "</plist>") data = some j →
      extractPlist data = .ok ((data.take (j + 8)).drop i) := by
    intro i j hx hr
    unfold extractPlist
    rw [hx, hr]
  have fwd2 : bytesFind (nstr "<?xml") data = none →
      ∀ i j, bytesFind (nstr "<plist") data = some i →
        bytesRFind (nstr "</plist>") data = some j →
        extractPlist data = .ok ((data.take (j + 8)).drop i) := by
    intro hx i j hp hr
    unfold extractPlist
    rw [hx, hp, hr]
  refine ⟨fwd1, fwd2, ?_, ?_⟩
  · rintro (⟨hx, hp⟩ | hr)
    · unfold extractPlist
      rw [hx, hp]
    · unfold extractPlist
      rw [hr]
      rcases bytesFind (nstr "<?xml") data with _ | i
      · cases bytesFind (nstr "<plist") data <;> rfl
      · rfl
  · intro he
    rcases hr : bytesRFind (nstr "</plist>") data with _ | j
    · exact Or.inr rfl
    · rcases hx : bytesFind (nstr "<?xml") data with _ | i
      · rcases hp : bytesFind (nstr "<plist") data with _ | i
        · exact Or.inl ⟨rfl, rfl⟩
        · rw [fwd2 hx i j hp hr] at he
          cases he
      · rw [fwd1 i j hx hr] at he
        cases he

/-- C4 witness: the amended characterisation applied to the concrete
profile bytes `"<?xml</plist>"` (markers at indices 0 and 5). -/
theorem claimC4_witness :
    extractPlist (nstr "<?xml</plist>") =
      .ok (((nstr "<?xml</plist>").take (5 + 8)).drop 0) :=
  (claimC4_extract_plist (nstr "<?xml</plist>")).1 0 5 (by decide) (by decide)

/-- C6 counterexample: the string made of one space followed by forty `0`
characters is accepted by the validator (no invalid-UDID error, because
`register_device` strips whitespace first, weekly.py line 428), yet it is
not a member of the claim's language `[0-9A-F-]{40}` — its length is 41. -/
theorem claimC6_counterexample :
    udidFormatOk exPaddedUdid = true ∧
    exPaddedUdid.length ≠ 40 ∧
    isInvalidUdidErr (registerDevice exWeeklyState exNet 0 exPaddedUdid).1 = false := by
  decide

/-- C6 (amended): the validator accepts exactly the strings whose
whitespace-stripped form has length 40 over `0-9`, `A-F`, `a-f` and `-`
(weekly.py lines 428-430); a format-invalid UDID is rejected with the
invalid-UDID error before any network traffic; and every
`register_device` call — in particular a repeated call with an
already-registered UDID — issues zero HTTP requests (the header bug of
`_dev_request` aborts before the socket; there is no in-process
memoisation, the code re-queries `listDevices` each call). -/
theorem claimC6_udid_validator :
    (∀ u : List Nat, udidFormatOk u = true ↔
      ((pyStripN u).length = 40 ∧ ∀ c ∈ pyStripN u,
        48 ≤ c ∧ c ≤ 57 ∨ 65 ≤ c ∧ c ≤ 70 ∨ 97 ≤ c ∧ c ≤ 102 ∨ c = 45)) ∧
    (∀ (st : WeeklyState) (net : DevNet) (now : Int) (udid : List Nat),
      isAuthenticated st now = true → udidFormatOk udid = false →
        registerDevice st net now udid =
          (.error (.invalidUdid (pyUpperN (pyStripN udid))), 0)) ∧
    (∀ (st : WeeklyState) (net : DevNet) (now : Int) (udid : List Nat),
      (registerDevice st net now udid).2 = 0) := by
  refine ⟨udidFormatOk_iff, ?_, ?_⟩
  · intro st net now udid h hf
    unfold registerDevice
    rw [if_neg (by simp [h]), if_pos (by simp [hf])]
  · intro st net now udid
    unfold registerDevice
    by_cases h : isAuthenticated st now
    · rw [if_neg (by simp [h])]
      by_cases hf : udidFormatOk udid
      · rw [if_neg (by simp [hf])]
        cases hs : st.session with
        | none =>
            rw [devRequest_none, devRequest_none]
            rfl
        | some s =>
            rw [devRequest_some, devRequest_some]
            rfl
      · rw [if_pos (by simp [hf])]
    · rw [if_pos (by simp [h])]

/-- C6 witness: the amended theorem applied at concrete inputs — the
40-zeros string is accepted and characterised, the 3-character string
`XYZ` is rejected with the invalid-UDID error and zero requests, and a
repeated call with an already-registered UDID performs zero requests. -/
theorem claimC6_witness :
    ((pyStripN (List.replicate 40 48)).length = 40 ∧
      ∀ c ∈ pyStripN (List.replicate 40 48),
        48 ≤ c ∧ c ≤ 57 ∨ 65 ≤ c ∧ c ≤ 70 ∨ 97 ≤ c ∧ c ≤ 102 ∨ c = 45) ∧
    registerDevice exWeeklyState exNet 0 (nstr "XYZ") =
      (.error (.invalidUdid (pyUpperN (pyStripN (nstr "XYZ")))), 0) ∧
    (registerDevice exWeeklyState exNet 0 (List.replicate 40 48)).2 = 0 :=
  ⟨(claimC6_udid_validator.1 (List.replicate 40 48)).mp (by decide),
   claimC6_udid_validator.2.1 exWeeklyState exNet 0 (nstr "XYZ") (by decide) (by decide),
   claimC6_udid_validator.2.2 exWeeklyState exNet 0 (List.replicate 40 48)⟩

/-- C7: during `sign_app` (core.py lines 528-555) every framework binary
(`.framework` bundles and bare `.dylib`s) is signed before any plug-in
(`.appex`) binary, every framework and plug-in binary is signed before
the main executable, and the main executable is never signed before any
nested binary: in the signing sequence, framework indices precede plug-in
indices, and both precede the main executable's index. -/
theorem claimC7_signing_order (fwDir plDir : Option (List FsEntry))
    (executableName : List Char) (mainExists : Bool) :
    (∀ (i j : Nat) (ti tj : SignTarget),
      (signingSequence fwDir plDir executableName mainExists)[i]? = some ti →
      ti.group = .framework →
      (signingSequence fwDir plDir executableName mainExists)[j]? = some tj →
      tj.group = .plugin → i < j) ∧
    (∀ (i j : Nat) (ti tj : SignTarget),
      (signingSequence fwDir plDir executableName mainExists)[i]? = some ti →
      ti.group = .framework →
      (signingSequence fwDir plDir executableName mainExists)[j]? = some tj →
      tj.group = .main → i < j) ∧
    (∀ (i j : Nat) (ti tj : SignTarget),
      (signingSequence fwDir plDir executableName mainExists)[i]? = some ti →
      ti.group = .plugin →
      (signingSequence fwDir plDir executableName mainExists)[j]? = some tj →
      tj.group = .main → i < j) := by
  have hFgrp : ∀ t : SignTarget, t ∈ optTargets frameworkTargets fwDir →
      t.group = .framework := by
    cases fwDir with
    | none => intro t ht; cases ht
    | some es => intro t ht; exact group_of_mem_frameworkTargets ht
  have hPgrp : ∀ t : SignTarget, t ∈ optTargets pluginTargets plDir →
      t.group = .plugin := by
    cases plDir with
    | none => intro t ht; cases ht
    | some es => intro t ht; exact group_of_mem_pluginTargets ht
  have hMgrp : ∀ t : SignTarget, t ∈ mainTargets executableName mainExists →
      t.group = SignGroup.main := by
    unfold mainTargets
    by_cases hm : mainExists
    · rw [if_pos hm]
      intro t ht
      rw [List.mem_singleton] at ht
      subst ht
      rfl
    · rw [if_neg hm]
      intro t ht
      cases ht
  unfold signingSequence
  generalize hF : optTargets frameworkTargets fwDir = F at hFgrp ⊢
  generalize hP : optTargets pluginTargets plDir = P at hPgrp ⊢
  generalize hM : mainTargets executableName mainExists = M at hMgrp ⊢
  have posF : ∀ {i : Nat} {t : SignTarget}, (F ++ P ++ M)[i]? = some t →
      t.group = .framework → i < F.length := by
    intro i t h hg
    rcases idx_append_cases h with ⟨_, h'⟩ | ⟨_, h'⟩
    · rcases idx_append_cases h' with ⟨hi2, _⟩ | ⟨_, h''⟩
      · exact hi2
      · rw [hPgrp t (List.getElem?_mem h'')] at hg
        cases hg
    · rw [hMgrp t (List.getElem?_mem h')] at hg
      cases hg
  have posP : ∀ {j : Nat} {t : SignTarget}, (F ++ P ++ M)[j]? = some t →
      t.group = .plugin → F.length ≤ j ∧ j < F.length + P.length := by
    intro j t h hg
    rcases idx_append_cases h with ⟨hj, h'⟩ | ⟨_, h'⟩
    · rcases idx_append_cases h' with ⟨_, h''⟩ | ⟨hj2, _⟩
      · rw [hFgrp t (List.getElem?_mem h'')] at hg
        cases hg
      · rw [List.length_append] at hj
        exact ⟨hj2, hj⟩
    · rw [hMgrp t (List.getElem?_mem h')] at hg
      cases hg
  have posM : ∀ {k : Nat} {t : SignTarget}, (F ++ P ++ M)[k]? = some t →
      t.group = .main → F.length + P.length ≤ k := by
    intro k t h hg
    rcases idx_append_cases h with ⟨_, h'⟩ | ⟨hk, _⟩
    · rcases List.mem_append.mp (List.getElem?_mem h') with hm | hm
      · rw [hFgrp t hm] at hg
        cases hg
      · rw [hPgrp t hm] at hg
        cases hg
    · rw [List.length_append] at hk
      exact hk
  refine ⟨?_, ?_, ?_⟩
  · intro i j ti tj h1 hg1 h2 hg2
    exact lt_of_lt_of_le (posF h1 hg1) (posP h2 hg2).1
  · intro i j ti tj h1 hg1 h2 hg2
    exact lt_of_lt_of_le (posF h1 hg1)
      (le_trans (Nat.le_add_right _ _) (posM h2 hg2))
  · intro i j ti tj h1 hg1 h2 hg2
    exact lt_of_lt_of_le (posP h1 hg1).2 (posM h2 hg2)

/-- C7 witness: the ordering theorem applied to a concrete bundle with
one framework, one plug-in and a main executable: the framework (index 0)
precedes the plug-in (index 1), which precedes the main binary
(index 2). -/
theorem claimC7_witness : (0 : Nat) < 1 ∧ (0 : Nat) < 2 ∧ (1 : Nat) < 2 :=
  ⟨(claimC7_signing_order (some [⟨cstr "Lib.framework", true⟩])
      (some [⟨cstr "Widget.appex", true⟩]) (cstr "Demo") true).1
      0 1 ⟨cstr "Lib.framework/Lib", .framework⟩ ⟨cstr "Widget.appex/Widget", .plugin⟩
      (by decide) (by decide) (by decide) (by decide),
   (claimC7_signing_order (some [⟨cstr "Lib.framework", true⟩])
      (some [⟨cstr "Widget.appex", true⟩]) (cstr "Demo") true).2.1
      0 2 ⟨cstr "Lib.framework/Lib", .framework⟩ ⟨cstr "Demo", .main⟩
      (by decide) (by decide) (by decide) (by decide),
   (claimC7_signing_order (some [⟨cstr "Lib.framework", true⟩])
      (some [⟨cstr "Widget.appex", true⟩]) (cstr "Demo") true).2.2
      1 2 ⟨cstr "Widget.appex/Widget", .plugin⟩ ⟨cstr "Demo", .main⟩
      (by decide) (by decide) (by decide) (by decide)⟩

/-- Team mismatch makes `validate` fail with the mismatch message among
its errors. -/
theorem validateChecks_mismatch (dateStr : Int → List Char)
    (sha1hex : List Nat → List Char) (cert : CertificateM)
    (profile : ProvisioningProfileM) (now : Int)
    (h : cert.teamId ≠ some profile.teamId) :
    (validateChecks dateStr sha1hex cert profile now).1 = false ∧
      teamMismatchMsg cert profile ∈
        (validateChecks dateStr sha1hex cert profile now).2 := by
  unfold validateChecks
  rw [if_neg h]
  constructor
  · simp
  · simp

/-- An expired profile makes `validate` fail with the profile-expired
message among its errors. -/
theorem validateChecks_expired (dateStr : Int → List Char)
    (sha1hex : List Nat → List Char) (cert : CertificateM)
    (profile : ProvisioningProfileM) (now : Int)
    (h : profile.expirationDate < now) :
    (validateChecks dateStr sha1hex cert profile now).1 = false ∧
      (cstr "Profile expired on " ++ dateStr profile.expirationDate) ∈
        (validateChecks dateStr sha1hex cert profile now).2 := by
  unfold validateChecks
  have hcond : ¬(profile.creationDate ≤ now ∧ now ≤ profile.expirationDate) := by
    rintro ⟨_, h2⟩
    omega
  rw [if_neg hcond]
  constructor
  · simp [List.isEmpty_iff, List.append_eq_nil]
  · exact List.mem_append_left _ (List.mem_append_left _
      (List.mem_append_right _ (List.mem_singleton_self _)))

/-- C8: with a fresh `AnnualSigner` whose certificate and profile parsed,
a certificate/profile team-id mismatch (respectively a profile expiry in
the past) makes `sign_ipa` return `success=false` with a message
mentioning the team mismatch (respectively the profile expiry), and no
core action — extraction, signing, or repacking — takes place, so no
output IPA is written. -/
theorem claimC8_validation_failure (dateStr : Int → List Char)
    (sha1hex : List Nat → List Char) (cert : CertificateM)
    (profile : ProvisioningProfileM) (now : Int) (inputExists : Bool)
    (coreOutcome : SigningResultM × List CoreAction) :
    (cert.teamId ≠ some profile.teamId →
      (annualSignIpa dateStr sha1hex cert profile now inputExists coreOutcome).1.success
          = false ∧
      cstr "Team ID mismatch" <:+:
        (annualSignIpa dateStr sha1hex cert profile now inputExists coreOutcome).1.message ∧
      (annualSignIpa dateStr sha1hex cert profile now inputExists coreOutcome).2 = []) ∧
    (profile.expirationDate < now →
      (annualSignIpa dateStr sha1hex cert profile now inputExists coreOutcome).1.success
          = false ∧
      cstr "Profile expired" <:+:
        (annualSignIpa dateStr sha1hex cert profile now inputExists coreOutcome).1.message ∧
      (annualSignIpa dateStr sha1hex cert profile now inputExists coreOutcome).2 = []) := by
  constructor
  · intro h
    obtain ⟨hv, hm⟩ := validateChecks_mismatch dateStr sha1hex cert profile now h
    unfold annualSignIpa
    rw [if_pos (by simp [hv])]
    refine ⟨rfl, ?_, rfl⟩
    have h1 : cstr "Team ID mismatch" <+: teamMismatchMsg cert profile := by
      refine ⟨cstr ": certificate=" ++ optStr cert.teamId ++
        cstr ", profile=" ++ profile.teamId, ?_⟩
      unfold teamMismatchMsg
      have : cstr "Team ID mismatch" ++ cstr ": certificate=" =
          cstr "Team ID mismatch: certificate=" := by decide
      rw [← this]
      simp
    exact infix_append_left (cstr "Validation failed: ")
      ( List.IsInfix.trans ( List.IsPrefix.isInfix h1) (infix_joinErrors hm))
  · intro h
    obtain ⟨hv, hm⟩ := validateChecks_expired dateStr sha1hex cert profile now h
    unfold annualSignIpa
    rw [if_pos (by simp [hv])]
    refine ⟨rfl, ?_, rfl⟩
    have h1 : cstr "Profile expired" <+:
        cstr "Profile expired on " ++ dateStr profile.expirationDate := by
      refine ⟨cstr " on " ++ dateStr profile.expirationDate, ?_⟩
      have : cstr "Profile expired" ++ cstr " on " = cstr "Profile expired on " := by
        decide
      rw [← this]
      simp
    exact infix_append_left (cstr "Validation failed: ")
      ( List.IsInfix.trans ( List.IsPrefix.isInfix h1) (infix_joinErrors hm))

/-- C8 witness: the theorem applied to concrete scenarios E2 (team
mismatch: certificate team `FGHIJ67890`, profile team `ABCDE12345`) and
E3 (profile expired before `now`). -/
theorem claimC8_witness :
    (annualSignIpa exDateStr exSha1 exCertE2 exProfileE1 1000000000 true
      (⟨true, [], []⟩, [])).1.success = false ∧
    (annualSignIpa exDateStr exSha1 exCertE2 exProfileE1 1000000000 true
      (⟨true, [], []⟩, [])).2 = [] ∧
    (annualSignIpa exDateStr exSha1 exCertE1 exProfileE3 1000000000 true
      (⟨true, [], []⟩, [])).1.success = false ∧
    (annualSignIpa exDateStr exSha1 exCertE1 exProfileE3 1000000000 true
      (⟨true, [], []⟩, [])).2 = [] :=
  ⟨((claimC8_validation_failure exDateStr exSha1 exCertE2 exProfileE1 1000000000 true
      (⟨true, [], []⟩, [])).1 (by decide)).1,
   ((claimC8_validation_failure exDateStr exSha1 exCertE2 exProfileE1 1000000000 true
      (⟨true, [], []⟩, [])).1 (by decide)).2.2,
   ((claimC8_validation_failure exDateStr exSha1 exCertE1 exProfileE3 1000000000 true
      (⟨true, [], []⟩, [])).2 (by decide)).1,
   ((claimC8_validation_failure exDateStr exSha1 exCertE1 exProfileE3 1000000000 true
      (⟨true, [], []⟩, [])).2 (by decide)).2.2⟩

/-- C9: profile variant classification (crypto_utils.py lines 256-270)
follows the specification's table, evaluated in order with first match
winning: `ProvisionsAllDevices` true → enterprise; else
`Entitlements["get-task-allow"]` true → development; else
`ProvisionedDevices` non-empty → ad-hoc; otherwise app-store.  In
particular a plist with `ProvisionsAllDevices` true and a non-empty
device list is classified enterprise.  The hypotheses say the three
consulted keys are absent or carry their mobileprovision types (booleans
and an array; `Entitlements` absent or a dict). -/
theorem claimC9_profile_classification (plist : List (List Char × PValue))
    (hPA : ∀ v, pget plist (cstr "ProvisionsAllDevices") = some v →
      ∃ b, v = PValue.bool b)
    (hEnt : pget plist (cstr "Entitlements") = none ∨
      ∃ d, pget plist (cstr "Entitlements") = some (.dict d) ∧
        ∀ v, pget d (cstr "get-task-allow") = some v → ∃ b, v = PValue.bool b)
    (hDev : ∀ v, pget plist (cstr "ProvisionedDevices") = some v →
      ∃ xs, v = PValue.arr xs) :
    classifyProfileType plist =
      .ok (classifyTable (paTrueB plist) (gtaTrueB plist) (devNonemptyB plist)) ∧
    (paTrueB plist = true → devNonemptyB plist = true →
      classifyProfileType plist = .ok (cstr "Enterprise")) := by
  have hpa : pTruthy ((pget plist (cstr "ProvisionsAllDevices")).getD (.bool false)) =
      paTrueB plist := by
    rcases hv : pget plist (cstr "ProvisionsAllDevices") with _ | v
    · simp [paTrueB, hv, pTruthy]
    · obtain ⟨b, rfl⟩ := hPA v hv
      cases b <;> simp [paTrueB, hv, pTruthy]
  have hgta : ∃ g, getTaskAllowOf plist = .ok g ∧ pTruthy g = gtaTrueB plist := by
    rcases hEnt with hnone | ⟨d, hd, hg⟩
    · exact ⟨.bool false, by simp [getTaskAllowOf, hnone],
        by simp [gtaTrueB, hnone, pTruthy]⟩
    · rcases hv : pget d (cstr "get-task-allow") with _ | v
      · exact ⟨.bool false, by simp [getTaskAllowOf, hd, hv],
          by simp [gtaTrueB, hd, hv, pTruthy]⟩
      · obtain ⟨b, rfl⟩ := hg v hv
        exact ⟨.bool b, by simp [getTaskAllowOf, hd, hv],
          by cases b <;> simp [gtaTrueB, hd, hv, pTruthy]⟩
  have hdev : (match pget plist (cstr "ProvisionedDevices") with
      | some v => pTruthy v
      | none => false) = devNonemptyB plist := by
    rcases hv : pget plist (cstr "ProvisionedDevices") with _ | v
    · simp [devNonemptyB, hv]
    · obtain ⟨xs, rfl⟩ := hDev v hv
      simp [devNonemptyB, hv, pTruthy]
  obtain ⟨g, hg1, hg2⟩ := hgta
  have hmain : classifyProfileType plist =
      .ok (classifyTable (paTrueB plist) (gtaTrueB plist) (devNonemptyB plist)) := by
    unfold classifyProfileType classifyTable
    simp only [hg1]
    rw [hpa, hg2, hdev]
  refine ⟨hmain, fun h1 h2 => ?_⟩
  rw [hmain]
  simp [classifyTable, h1]

/-- C9 witness: the classification theorem applied to the concrete plist
with `ProvisionsAllDevices = true` and a non-empty device list, yielding
enterprise. -/
theorem claimC9_witness :
    classifyProfileType exPlistEnterprise = .ok (cstr "Enterprise") := by
  refine (claimC9_profile_classification exPlistEnterprise ?_ ?_ ?_).2 rfl rfl
  · intro v hv
    have he : pget exPlistEnterprise (cstr "ProvisionsAllDevices") =
        some (.bool true) := rfl
    rw [he] at hv
    exact ⟨true, (Option.some.inj hv).symm⟩
  · exact Or.inl rfl
  · intro v hv
    have he : pget exPlistEnterprise (cstr "ProvisionedDevices") =
        some (.arr [.str (cstr "0000000000000000000000000000000000000000")]) := rfl
    rw [he] at hv
    exact ⟨_, (Option.some.inj hv).symm⟩

/-- C10: `generate_entitlements` (core.py lines 231-272) produces exactly
the profile's entitlements with `application-identifier` overwritten by
`<team_id>.<bundle_id>` and `com.apple.developer.team-identifier`
overwritten by `<team_id>`; each of the nine preservable keys is copied
from the app's previous entitlements exactly when it is present in both
the app's previous entitlements and the profile's entitlements; every
other key keeps the profile's value. -/
theorem claimC10_generate_entitlements (profile : ProvisioningProfileM)
    (bundleId : List Char) (appEnts : List (List Char × PValue)) (k : List Char) :
    pget (generateEntitlements profile bundleId appEnts) k =
      if k = cstr "application-identifier" then
        some (.str (profile.teamId ++ '.' :: bundleId))
      else if k = cstr "com.apple.developer.team-identifier" then
        some (.str profile.teamId)
      else if k ∈ preserveKeys ∧ (pget appEnts k).isSome ∧
          (pget profile.entitlements k).isSome then pget appEnts k
      else pget profile.entitlements k := by
  have dAppTeam : cstr "application-identifier" ≠
      cstr "com.apple.developer.team-identifier" := by decide
  have hnpApp : cstr "application-identifier" ∉ preserveKeys := by decide
  have hnpTeam : cstr "com.apple.developer.team-identifier" ∉ preserveKeys := by
    decide
  unfold generateEntitlements
  by_cases he : appEnts.isEmpty
  · rw [if_pos he]
    have hnil : appEnts = [] := List.isEmpty_iff.mp he
    subst hnil
    rw [pget_setKey, pget_setKey]
    by_cases h1 : k = cstr "application-identifier"
    · subst h1
      rw [if_neg dAppTeam, if_pos rfl, if_pos rfl]
    · by_cases h2 : k = cstr "com.apple.developer.team-identifier"
      · subst h2
        rw [if_pos rfl, if_neg dAppTeam.symm, if_pos rfl]
      · rw [if_neg h2, if_neg h1, if_neg h1, if_neg h2,
          if_neg (by simp [pget])]
  · rw [if_neg he, pget_mergeFold, pget_setKey, pget_setKey]
    by_cases h1 : k = cstr "application-identifier"
    · subst h1
      rw [if_neg (fun hc => hnpApp hc.1), if_neg dAppTeam, if_pos rfl, if_pos rfl]
    · by_cases h2 : k = cstr "com.apple.developer.team-identifier"
      · subst h2
        rw [if_neg (fun hc => hnpTeam hc.1), if_pos rfl,
          if_neg dAppTeam.symm, if_pos rfl]
      · rw [if_neg h1, if_neg h2]
        by_cases hc : k ∈ preserveKeys ∧ (pget appEnts k).isSome ∧
            (pget profile.entitlements k).isSome
        · rw [if_pos hc, if_neg h1, if_neg h2]
        · rw [if_neg hc, if_neg h1, if_neg h2]

end IosTool
